import Mathlib

/-!
Verification development for the GLX/GALAX civic networking app's real-time
connection lifecycle manager.

The definitions below are a shallow embedding of the TypeScript sources:

* `server/socketManager.ts` — the `SocketManager` class: connection
  validation, authentication, messaging, retry handling, cleanup and the
  idle-timeout check.
* `client/src/hooks/useSocket.ts` — the HTTP-polling hook: notification
  polling/merging and the client-side reconnection backoff.

External collaborators (the JWT verifier, the Kysely database, the
security middleware's opaque predicates) are modelled as explicit inputs
to each handler, mirroring exactly where their results are consulted in
the source.  JavaScript `Map`s are modelled as association lists,
JavaScript truthiness is modelled explicitly, and timer callbacks are
modelled as separate functions on the manager state.
-/

namespace GLX

/-- JavaScript value for fields whose runtime type the source checks
dynamically (for example `decoded.userId` and the members of a
`send_message` payload). -/
inductive JsVal where
  | undef : JsVal
  | nullv : JsVal
  | num : Int → JsVal
  | str : String → JsVal
  deriving Repr, DecidableEq

/-- JavaScript truthiness of a `JsVal` (`NaN` is not modelled; `0` and the
empty string are falsy, `undefined` and `null` are falsy). -/
def JsVal.truthy : JsVal → Bool
  | .undef => false
  | .nullv => false
  | .num n => n != 0
  | .str s => s != ""

/-- Outcome of the JavaScript test `typeof v === "number"`. -/
def JsVal.isNumber : JsVal → Bool
  | .num _ => true
  | _ => false

/-- Outcome of the JavaScript test `typeof v === "string"`. -/
def JsVal.isString : JsVal → Bool
  | .str _ => true
  | _ => false

/-- The numeric payload of a `JsVal`, or `0` when it is not a number. -/
def JsVal.asNum : JsVal → Int
  | .num n => n
  | _ => 0

/-- The string payload of a `JsVal`, or `""` when it is not a string. -/
def JsVal.asStr : JsVal → String
  | .str s => s
  | _ => ""

/-- Association-list model of a JavaScript `Map` keyed by strings:
`Map.prototype.get`. -/
def alookup {α : Type} (l : List (String × α)) (k : String) : Option α :=
  (l.find? (fun p => p.1 == k)).map (fun p => p.2)

/-- Association-list model of `Map.prototype.delete` (removing every
binding for the key). -/
def aerase {α : Type} (l : List (String × α)) (k : String) : List (String × α) :=
  l.filter (fun p => p.1 != k)

/-- Association-list model of `Map.prototype.set`: replace the binding in
place when the key is present, append it otherwise. -/
def aset {α : Type} (l : List (String × α)) (k : String) (v : α) : List (String × α) :=
  if (l.find? (fun p => p.1 == k)).isSome then
    l.map (fun p => if p.1 == k then (p.1, v) else p)
  else
    l ++ [(k, v)]

/-- In-place mutation of the value stored under a key (a JavaScript object
field assignment reached through `Map.prototype.get`); a no-op when the
key is absent. -/
def aupdate {α : Type} (l : List (String × α)) (k : String) (f : α → α) :
    List (String × α) :=
  l.map (fun p => if p.1 == k then (p.1, f p.2) else p)

/-- One notification record held by the client hook
(`useSocket.ts`, interface `NotificationData`). -/
structure NotificationData where
  id : String
  ntype : String
  message : String
  timestamp : String
  deriving Repr, DecidableEq

/-- JavaScript `Array.prototype.slice(-k)`: the last `k` elements (the
whole list when it is shorter than `k`). -/
def jsSliceLast {α : Type} (k : Nat) (l : List α) : List α :=
  l.drop (l.length - k)

/-- The updater passed to `setNotifications` inside `pollNotifications`
(`useSocket.ts` lines 174-179): filter the fetched batch against the ids
already present, append, and keep only the last 50. -/
def mergeNotifications (prev incoming : List NotificationData) : List NotificationData :=
  jsSliceLast 50
    (prev ++ incoming.filter (fun n => !(prev.any (fun p => p.id == n.id))))

/-- The part of the client hook state that `pollNotifications` touches:
the `notifications` React state and the `lastNotificationTimestamp` ref. -/
structure NotifPollState where
  notifications : List NotificationData
  lastNotificationTimestamp : Option String
  deriving Repr, DecidableEq

/-- State effect of one successful `pollNotifications` response
(`useSocket.ts` lines 160-184): when the fetched batch is non-empty,
merge it into the list and advance the cursor to the last fetched
timestamp; otherwise leave the state untouched. -/
def pollNotificationsStep (st : NotifPollState) (fetched : List NotificationData) :
    NotifPollState :=
  match fetched.getLast? with
  | none => st
  | some lastN =>
      { notifications := mergeNotifications st.notifications fetched,
        lastNotificationTimestamp := some lastN.timestamp }

/-- The connection-health record of the client hook
(`useSocket.ts`, interface `ConnectionHealthStatus`; the fields
`handleReconnection` reads or writes). -/
structure HookHealth where
  connected : Bool
  retryAttempts : Nat
  maxRetries : Nat
  lastError : Option String
  deriving Repr, DecidableEq

/-- Client reconnection state: the health record plus whether a retry
timeout is currently pending (`retryTimeoutRef.current`). -/
structure ClientState where
  health : HookHealth
  retryPending : Bool
  deriving Repr, DecidableEq

/-- The user-visible error text set by `handleReconnection` when a retry
is scheduled. -/
def reconnectingMsg (delay attempt maxRetries : Nat) : String :=
  "Reconnecting in " ++ toString delay ++ "ms (attempt " ++ toString attempt ++
    "/" ++ toString maxRetries ++ ")"

/-- The terminal error text set by `handleReconnection` when no retry is
scheduled. -/
def maxReconnectMsg : String := "Maximum reconnection attempts reached"

/-- Client-side backoff delay for the incremented attempt count
(`useSocket.ts` line 285): `Math.min(2000 * Math.pow(2, n - 1), 32000)`. -/
def clientRetryDelay (n : Nat) : Nat := min (2000 * 2 ^ (n - 1)) 32000

/-- The `handleReconnection` function of the client hook
(`useSocket.ts` lines 267-300).  Returns the new state together with the
delay of the newly scheduled retry, or `none` when nothing is scheduled.
An already-pending retry makes the call a no-op; otherwise the attempt
count is incremented, and a retry is scheduled only when the incremented
count is still below `maxRetries`. -/
def handleReconnection (st : ClientState) : ClientState × Option Nat :=
  if st.retryPending then
    (st, none)
  else
    let newRetryAttempts := st.health.retryAttempts + 1
    if newRetryAttempts ≥ st.health.maxRetries then
      ({ st with health := { st.health with
            retryAttempts := newRetryAttempts,
            lastError := some maxReconnectMsg } },
       none)
    else
      let delay := clientRetryDelay newRetryAttempts
      ({ health := { st.health with
            retryAttempts := newRetryAttempts,
            lastError := some (reconnectingMsg delay newRetryAttempts st.health.maxRetries) },
         retryPending := true },
       some delay)

/-- Outbound effects of the server handlers: socket emissions, forced
disconnects and structured security-log entries, in program order. -/
inductive Emit where
  | ping (ts : Nat)
  | authError (msg : String)
  | authenticated (userId : Int) (ts : Nat)
  | errEvt (msg : String)
  | newMessage (room : String) (id : Nat) (text : String) (sender : String) (ts : Nat)
  | messageSent (id : Nat) (ts : Nat)
  | maxRetriesReached (msg : String)
  | connectionRetry (attempt : Nat) (maxRetries : Nat) (nextDelay : Nat)
  | idleTimeout (msg : String) (idleMinutes : Nat)
  | disconnect (sid : String) (reason : String)
  | secLog (kind : String) (severity : String) (threats : List String) (snippet : Option String)
  deriving Repr, DecidableEq

/-- Tests whether an emission is a `new_message` broadcast. -/
def Emit.isNewMessage : Emit → Bool
  | .newMessage _ _ _ _ _ => true
  | _ => false

/-- Tests whether an emission is a `message_sent` acknowledgement. -/
def Emit.isMessageSent : Emit → Bool
  | .messageSent _ _ => true
  | _ => false

/-- Tests whether an emission is an `authenticated` success event. -/
def Emit.isAuthenticated : Emit → Bool
  | .authenticated _ _ => true
  | _ => false

/-- Tests whether an emission is an `auth_error` event. -/
def Emit.isAuthError : Emit → Bool
  | .authError _ => true
  | _ => false

/-- Tests whether an emission is a forced disconnect. -/
def Emit.isDisconnect : Emit → Bool
  | .disconnect _ _ => true
  | _ => false

/-- One entry of the `connectedUsers` map
(`socketManager.ts`, interface `UserConnection`); timer handles are
opaque numbers. -/
structure UserConnection where
  userId : Int
  socketId : String
  connectedAt : Nat
  lastActivity : Nat
  heartbeatInterval : Option Nat
  idleTimeout : Option Nat
  deriving Repr, DecidableEq

/-- One entry of the `connectionRetries` map
(`socketManager.ts`, interface `ConnectionRetry`). -/
structure ConnectionRetry where
  attempts : Nat
  lastAttempt : Nat
  maxRetries : Nat
  deriving Repr, DecidableEq

/-- One row of the `messages` table as inserted by `handleMessaging`. -/
structure DbMessage where
  id : Nat
  helpRequestId : Int
  senderId : Int
  text : String
  deriving Repr, DecidableEq

/-- The `SocketManager` state the handlers read and write: the two
in-memory maps plus the two database tables the manager owns rows in
(`user_connections` and `messages`). -/
structure ManagerState where
  connectedUsers : List (String × UserConnection)
  connectionRetries : List (String × ConnectionRetry)
  dbUserConnections : List (Int × String)
  dbMessages : List DbMessage
  deriving Repr, DecidableEq

/-- Result of an awaited database call that may raise. -/
inductive DbResult (α : Type) where
  | thrown : DbResult α
  | ok : α → DbResult α
  deriving Repr, DecidableEq

/-- Result of `jwt.verify`: a `JsonWebTokenError`, some other exception,
or the decoded payload's `userId` field. -/
inductive VerifyOutcome where
  | jwtError : VerifyOutcome
  | genError : VerifyOutcome
  | ok : JsVal → VerifyOutcome
  deriving Repr, DecidableEq

/-- A row of the `users` table consulted by the authentication handler. -/
structure DirUser where
  id : Int
  username : String
  deriving Repr, DecidableEq

/-- Results of the external collaborators consulted by one run of the
`authenticate` handler, in the order the source consults them. -/
structure AuthEnv where
  authRateOk : Bool
  tokenFormatOk : Bool
  secretPresent : Bool
  verify : VerifyOutcome
  userLookup : DbResult (Option DirUser)
  insertOk : Bool
  now : Nat
  deriving Repr, DecidableEq

/-- The `authenticate` event handler (`socketManager.ts` lines 171-283,
`handleAuthentication`).  Checks run in source order: auth rate limit,
token format, secret presence, JWT verification, payload `userId`
validity (JavaScript truthiness and `typeof === "number"`), directory
lookup.  On success the connection's `userId` field is mutated in place
(when the registry still holds the connection), a `user_connections` row
is inserted, the retry entry is dropped, and `authenticated` is emitted;
a throwing insert is caught by the surrounding `catch` after the
`userId` mutation has already happened. -/
def handleAuthenticate (st : ManagerState) (sid : String) (env : AuthEnv) :
    ManagerState × List Emit :=
  if !env.authRateOk then
    (st, [.authError "Too many authentication attempts"])
  else if !env.tokenFormatOk then
    (st, [.authError "Invalid token format",
          .secLog "invalid_token_format" "medium" [] none])
  else if !env.secretPresent then
    (st, [.authError "Authentication service unavailable"])
  else
    match env.verify with
    | .jwtError =>
        (st, [.authError "Invalid authentication token",
              .secLog "jwt_verification_failed" "high" [] none])
    | .genError =>
        (st, [.authError "Authentication failed",
              .secLog "authentication_error" "medium" [] none])
    | .ok uidVal =>
        if !(uidVal.truthy && uidVal.isNumber) then
          (st, [.authError "Invalid user ID in token",
                .secLog "invalid_user_id" "medium" [] none])
        else
          let userId := uidVal.asNum
          match env.userLookup with
          | .thrown =>
              (st, [.authError "Authentication failed",
                    .secLog "authentication_error" "medium" [] none])
          | .ok none =>
              (st, [.authError "User not found",
                    .secLog "user_not_found" "medium" [] none])
          | .ok (some _user) =>
              let cu1 := aupdate st.connectedUsers sid (fun c => { c with userId := userId })
              let st1 := { st with connectedUsers := cu1 }
              if !env.insertOk then
                (st1, [.authError "Authentication failed",
                       .secLog "authentication_error" "medium" [] none])
              else
                ({ st1 with
                     dbUserConnections := st1.dbUserConnections ++ [(userId, sid)],
                     connectionRetries := aerase st1.connectionRetries sid },
                 [.authenticated userId env.now,
                  .secLog "authentication_success" "low" [] none])

/-- Result of the `screenMessage`/`validateMessage` content screen
(opaque to the manager, a `WebSocketSecurityMiddleware` collaborator). -/
structure MsgValidation where
  isValid : Bool
  sanitized : String
  threats : List String
  deriving Repr, DecidableEq

/-- Result of the `messages` insert: an exception, an insert returning no
row, or the generated id and `created_at` value. -/
inductive PersistOutcome where
  | thrown : PersistOutcome
  | noRow : PersistOutcome
  | saved : Nat → Nat → PersistOutcome
  deriving Repr, DecidableEq

/-- A row of the `users` table consulted for sender display metadata. -/
structure SenderInfo where
  username : String
  avatarUrl : Option String
  deriving Repr, DecidableEq

/-- Results of the external collaborators consulted by one run of the
`send_message` handler. -/
structure MsgEnv where
  msgRateOk : Bool
  validation : MsgValidation
  persist : PersistOutcome
  senderLookup : DbResult (Option SenderInfo)
  deriving Repr, DecidableEq

/-- JavaScript `String.prototype.trim()`: strip whitespace from both
ends of the string. -/
def jsTrim (s : String) : String :=
  ⟨((s.data.dropWhile Char.isWhitespace).reverse.dropWhile Char.isWhitespace).reverse⟩

/-- The raw `send_message` payload fields, with runtime types unknown. -/
structure MsgData where
  helpRequestId : JsVal
  message : JsVal
  deriving Repr, DecidableEq

/-- The `send_message` event handler (`socketManager.ts` lines 326-428,
`handleMessaging`).  Checks run in source order: registry lookup and
`userId` truthiness, message rate limit, `helpRequestId` shape, message
shape (non-empty trimmed string), content screen.  A passing message is
persisted sanitized; a missing returned row aborts with an error, a
throwing insert or sender lookup is caught by the surrounding `catch`;
otherwise one `new_message` broadcast to the help-request room and one
`message_sent` acknowledgement are emitted. -/
def handleMessage (st : ManagerState) (sid : String) (data : MsgData) (env : MsgEnv) :
    ManagerState × List Emit :=
  match alookup st.connectedUsers sid with
  | none => (st, [.errEvt "Not authenticated"])
  | some conn =>
      if conn.userId == 0 then
        (st, [.errEvt "Not authenticated"])
      else if !env.msgRateOk then
        (st, [.errEvt "Message rate limit exceeded",
              .secLog "message_rate_limit" "medium" [] none])
      else if !(data.helpRequestId.truthy && data.helpRequestId.isNumber) then
        (st, [.errEvt "Invalid help request ID"])
      else if !(data.message.truthy && data.message.isString &&
                 ( (jsTrim data.message.asStr).length != 0)) then
        (st, [.errEvt "Message cannot be empty"])
      else if !env.validation.isValid then
        (st, [.errEvt "Message contains inappropriate content",
              .secLog "malicious_message_blocked" "high" env.validation.threats
                (some (data.message.asStr.take 100))])
      else
        match env.persist with
        | .thrown =>
            (st, [.errEvt "Failed to send message",
                  .secLog "message_processing_error" "medium" [] none])
        | .noRow =>
            (st, [.errEvt "Failed to save message"])
        | .saved mid ts =>
            let st1 := { st with dbMessages := st.dbMessages ++
              [⟨mid, data.helpRequestId.asNum, conn.userId, env.validation.sanitized⟩] }
            match env.senderLookup with
            | .thrown =>
                (st1, [.errEvt "Failed to send message",
                       .secLog "message_processing_error" "medium" [] none])
            | .ok senderOpt =>
                let label := match senderOpt with
                  | some s => if s.username != "" then s.username else "Unknown"
                  | none => "Unknown"
                (st1, [.newMessage ("help_request_" ++ toString data.helpRequestId.asNum)
                         mid env.validation.sanitized label ts,
                       .messageSent mid ts])

/-- Server-side backoff delay for a given attempt count
(`socketManager.ts` lines 448 and 459):
`Math.min(1000 * Math.pow(2, attempts), 16000)`. -/
def serverRetryDelay (a : Nat) : Nat := min (1000 * 2 ^ a) 16000

/-- The retry entry consulted by `handleConnectionRetry`: the stored one,
or the fresh default `{attempts: 0, lastAttempt: now, maxRetries: 5}`. -/
def retryInfoOrDefault (st : ManagerState) (sid : String) (now : Nat) : ConnectionRetry :=
  (alookup st.connectionRetries sid).getD ⟨0, now, 5⟩

/-- The `retry_connection` event handler (`socketManager.ts` lines
430-470, `handleConnectionRetry`).  Returns the new state, the immediate
emissions, and the scheduled `connection_retry` emission paired with its
delay (`none` when nothing is scheduled).  At or above the ceiling it
emits `max_retries_reached`, force-disconnects, and leaves the retry
state untouched; below it the attempt count is bumped and a
`connection_retry` event is scheduled after the backoff delay. -/
def handleConnectionRetry (st : ManagerState) (sid : String) (now : Nat) :
    ManagerState × List Emit × Option (Nat × Emit) :=
  let retryInfo := retryInfoOrDefault st sid now
  if retryInfo.attempts ≥ retryInfo.maxRetries then
    (st, [.maxRetriesReached "Maximum retry attempts reached",
          .disconnect sid "max_retries_exceeded"], none)
  else
    let delay := serverRetryDelay retryInfo.attempts
    let newInfo : ConnectionRetry :=
      { retryInfo with attempts := retryInfo.attempts + 1, lastAttempt := now }
    ({ st with connectionRetries := aset st.connectionRetries sid newInfo },
     [],
     some (delay, .connectionRetry newInfo.attempts newInfo.maxRetries
       (serverRetryDelay newInfo.attempts)))

/-- The `cleanupConnection` teardown path (`socketManager.ts` lines
501-535).  When the connection is still registered its timers are
cleared by discarding the record, its `user_connections` rows are
deleted only when `userId` is truthy, and both map entries are removed;
when it is already gone only the retry entry is (redundantly) removed. -/
def cleanupConnection (st : ManagerState) (sid : String) : ManagerState :=
  match alookup st.connectedUsers sid with
  | some conn =>
      let db1 := if conn.userId != 0
        then st.dbUserConnections.filter (fun r => r.2 != sid)
        else st.dbUserConnections
      { st with connectedUsers := aerase st.connectedUsers sid,
                dbUserConnections := db1,
                connectionRetries := aerase st.connectionRetries sid }
  | none => { st with connectionRetries := aerase st.connectionRetries sid }

/-- The idle-timer callback (`socketManager.ts` lines 544-562,
`checkIdleConnection`).  A connection no longer in the registry makes
the callback return immediately; an idle one is notified and
force-disconnected; otherwise the idle timer is rearmed with a fresh
handle. -/
def checkIdleConnection (st : ManagerState) (sid : String) (now : Nat)
    (newHandle : Nat) : ManagerState × List Emit :=
  match alookup st.connectedUsers sid with
  | none => (st, [])
  | some conn =>
      let idleTime := now - conn.lastActivity
      if idleTime > 30 * 60 * 1000 then
        (st, [.idleTimeout "Connection closed due to inactivity"
                ((idleTime + 30000) / 60000),
              .disconnect sid "idle_timeout"])
      else
        let cu1 := aupdate st.connectedUsers sid
          (fun c => { c with idleTimeout := some newHandle })
        ({ st with connectedUsers := cu1 }, [])

/-- The heartbeat interval callback (`socketManager.ts` lines 132-138):
it emits a `ping` while the transport is connected and clears its own
interval otherwise; it never reads or writes the registry. -/
def heartbeatTick (st : ManagerState) (connected : Bool) (now : Nat) :
    ManagerState × List Emit :=
  (st, if connected then [.ping now] else [])

/-- The handshake headers consulted by `validateConnection`; absent
headers are `none`. -/
structure Headers where
  origin : Option String
  referer : Option String
  deriving Repr, DecidableEq

/-- JavaScript `headers.origin || headers.referer`: the origin header
unless it is absent or empty, in which case the referer header
(whatever it is). -/
def effectiveOrigin (h : Headers) : Option String :=
  match h.origin with
  | some s => if s != "" then some s else h.referer
  | none => h.referer

/-- JavaScript truthiness of an optional string. -/
def jsTruthyOpt (o : Option String) : Bool :=
  match o with
  | some s => s != ""
  | none => false

/-- Modelled from the spec: the implementation of
`WebSocketSecurityMiddleware.validateOrigin` is not among the provided
sources (only its caller `socketManager.ts` is); spec §4.1 specifies it
as membership of a configured allow-list. -/
def validateOrigin (allowedOrigins : List String) (origin : String) : Bool :=
  allowedOrigins.contains origin

/-- Results of the security middleware's opaque checks for one inbound
connection attempt, plus the configured origin allow-list. -/
structure GateEnv where
  allowedOrigins : List String
  cswh : Bool
  connRateOk : Bool
  deriving Repr, DecidableEq

/-- Reason a connection attempt was rejected by `validateConnection`. -/
inductive RejectReason where
  | invalidOrigin : RejectReason
  | cswhDetected : RejectReason
  | connectionRateLimit : RejectReason
  deriving Repr, DecidableEq

/-- The `validateConnection` screen (`socketManager.ts` lines 57-92):
origin check first (only when the effective origin is truthy), then the
cross-site-hijack heuristic, then the per-IP connection rate limit.
Returns the first rejection reason, or `none` for an admitted attempt. -/
def validateConnection (h : Headers) (env : GateEnv) : Option RejectReason :=
  let origin := effectiveOrigin h
  if jsTruthyOpt origin && !(validateOrigin env.allowedOrigins (origin.getD "")) then
    some .invalidOrigin
  else if env.cswh then
    some .cswhDetected
  else if !env.connRateOk then
    some .connectionRateLimit
  else
    none

/-- A freshly admitted registry entry (`socketManager.ts` lines 96-101
with the timer handles attached by `setupHeartbeat` and
`setupIdleTimeout`). -/
def newConnection (sid : String) (now : Nat) (hbHandle idleHandle : Nat) : UserConnection :=
  { userId := 0, socketId := sid, connectedAt := now, lastActivity := now,
    heartbeatInterval := some hbHandle, idleTimeout := some idleHandle }

/-- The `connection` listener (`socketManager.ts` lines 43-55,
`setupConnectionHandling` feeding `handleNewConnection`): a rejected
attempt is logged and disconnected without any registry change; an
admitted one is entered into the registry unauthenticated with its
timers armed. -/
def setupConnection (st : ManagerState) (sid : String) (h : Headers) (env : GateEnv)
    (now hbHandle idleHandle : Nat) : ManagerState × List Emit :=
  match validateConnection h env with
  | some .invalidOrigin =>
      (st, [.secLog "invalid_origin" "high" [] none, .disconnect sid "validation_failed"])
  | some .cswhDetected =>
      (st, [.secLog "cswh_detected" "critical" [] none, .disconnect sid "validation_failed"])
  | some .connectionRateLimit =>
      (st, [.secLog "connection_rate_limit" "medium" [] none,
            .disconnect sid "validation_failed"])
  | none =>
      let cu1 := aset st.connectedUsers sid (newConnection sid now hbHandle idleHandle)
      ({ st with connectedUsers := cu1 }, [])

/-- The six authentication failure classes visible in
`handleAuthentication`'s guard cascade: rate-limited, malformed token,
missing secret, verification failure (`JsonWebTokenError` or any other
exception from `jwt.verify`), invalid decoded subject, and unknown
subject. -/
def authFailClass (env : AuthEnv) : Bool :=
  !env.authRateOk || !env.tokenFormatOk || !env.secretPresent ||
    (match env.verify with
     | .jwtError => true
     | .genError => true
     | .ok uidVal =>
         !(uidVal.truthy && uidVal.isNumber) ||
           (match env.userLookup with
            | .ok none => true
            | _ => false))

/-- The fixed generic `auth_error` message texts the handler can emit;
none of them interpolates token content, exception text or any other
internal detail. -/
def genericAuthMessages : List String :=
  ["Too many authentication attempts", "Invalid token format",
   "Authentication service unavailable", "Invalid authentication token",
   "Authentication failed", "Invalid user ID in token", "User not found"]

/-!
Helper lemmas about the association-list map model, shared by the claim
theorems below.
-/

theorem alookup_aerase_self {α : Type} (l : List (String × α)) (k : String) :
    alookup (aerase l k) k = none := by
  unfold alookup aerase
  induction l with
  | nil => simp
  | cons p t ih =>
    by_cases hp : p.1 = k
    · simp only [hp, List.filter_cons]
      simp only [bne_self_eq_false]
      exact ih
    · simp only [List.filter_cons]
      have hptk : (p.1 != k) = true := by simp [hp]
      rw [hptk]
      simp only [if_true, List.find?_cons]
      have : (p.1 == k) = false := by simp [hp]
      rw [this]
      exact ih

theorem aerase_aerase_self {α : Type} (l : List (String × α)) (k : String) :
    aerase (aerase l k) k = aerase l k := by
  unfold aerase
  rw [List.filter_filter]
  simp

theorem alookup_aupdate_self {α : Type} (l : List (String × α)) (k : String)
    (f : α → α) : alookup (aupdate l k f) k = (alookup l k).map f := by
  unfold alookup aupdate
  induction l with
  | nil => simp
  | cons p t ih =>
    by_cases hp : p.1 = k
    · simp [hp]
    · have hpk : (p.1 == k) = false := by simp [hp]
      simp only [List.map_cons, hpk, Bool.false_eq_true, if_false, List.find?_cons]
      exact ih

theorem alookup_aset_self {α : Type} (l : List (String × α)) (k : String)
    (v : α) : alookup (aset l k v) k = some v := by
  unfold aset
  by_cases h : (l.find? (fun p => p.1 == k)).isSome
  · rw [if_pos h]
    unfold alookup
    induction l with
    | nil => simp at h
    | cons p t ih =>
      by_cases hp : p.1 = k
      · simp [hp]
      · have hpk : (p.1 == k) = false := by simp [hp]
        simp only [List.map_cons, hpk, Bool.false_eq_true, if_false, List.find?_cons]
        apply ih
        simpa [List.find?_cons, hpk] using h
  · rw [if_neg h]
    unfold alookup
    induction l with
    | nil => simp
    | cons p t ih =>
      have hpk : (p.1 == k) = false := by
        by_contra hc
        have : (p.1 == k) = true := by
          cases hb : (p.1 == k) with
          | true => rfl
          | false => exact absurd hb hc
        apply h
        simp [List.find?_cons, this]
      simp only [List.cons_append, List.find?_cons, hpk]
      apply ih
      intro hc
      apply h
      simp only [List.find?_cons, hpk]
      exact hc

/-!
Claim theorems.
-/

/-- C5: evaluation of `handleReconnection` at the divergence point.  With
`retryAttempts = 4`, `maxRetries = 5` and no retry pending, the handler
transitions to the terminal exhausted state without scheduling anything,
because it compares the incremented attempt count against `maxRetries`;
the claimed behaviour at this point is to increment to 5 and schedule a
retry after `clientRetryDelay 5 = 32000` ms (the schedule's documented
fifth delay, which this guard makes unreachable). -/
theorem client_backoff_exhausts_after_four_attempts :
    handleReconnection ⟨⟨false, 4, 5, none⟩, false⟩ =
      (⟨⟨false, 5, 5, some maxReconnectMsg⟩, false⟩, none) ∧
    clientRetryDelay 5 = 32000 := by
  exact ⟨rfl, rfl⟩

/-- C10: after every `pollNotifications` merge of a non-empty fetched
batch, the notifications list holds at most 50 entries; the fetched
batch is deduplicated by id against the existing list, only the most
recent 50 entries of the merged list are retained, and every retained
entry comes from the previous list or the fetched batch. -/
theorem poll_notifications_bounded_merge (st : NotifPollState)
    (fetched : List NotificationData) (hne : fetched ≠ []) :
    (pollNotificationsStep st fetched).notifications.length ≤ 50 ∧
    (pollNotificationsStep st fetched).notifications =
      jsSliceLast 50 (st.notifications ++
        fetched.filter (fun n => !(st.notifications.any (fun p => p.id == n.id)))) ∧
    ∀ n ∈ (pollNotificationsStep st fetched).notifications,
      n ∈ st.notifications ∨ n ∈ fetched := by
  obtain ⟨l, hl⟩ : ∃ l, fetched.getLast? = some l := by
    cases hg : fetched.getLast? with
    | none => exact absurd (List.getLast?_eq_none_iff.mp hg) hne
    | some l => exact ⟨l, rfl⟩
  have hstep : pollNotificationsStep st fetched =
      { notifications := mergeNotifications st.notifications fetched,
        lastNotificationTimestamp := some l.timestamp } := by
    unfold pollNotificationsStep
    rw [hl]
  rw [hstep]
  refine ⟨?_, rfl, ?_⟩
  · unfold mergeNotifications jsSliceLast
    rw [List.length_drop]
    omega
  · intro n hn
    have hmem : n ∈ st.notifications ++
        fetched.filter (fun x => !(st.notifications.any (fun p => p.id == x.id))) := by
      unfold mergeNotifications jsSliceLast at hn
      exact List.drop_subset _ _ hn
    rcases List.mem_append.mp hmem with h | h
    · exact Or.inl h
    · exact Or.inr (List.mem_of_mem_filter h)

/-- Witness for the C10 theorem at a concrete one-element fetch into an
empty list. -/
theorem poll_notifications_bounded_merge_witness :
    (pollNotificationsStep ⟨[], none⟩ [⟨"n1", "chat", "hello", "t1"⟩]).notifications.length ≤ 50 :=
  (poll_notifications_bounded_merge ⟨[], none⟩ [⟨"n1", "chat", "hello", "t1"⟩]
    (by simp)).1

/-- C7: connection removal is idempotent, and both per-connection timer
callbacks are no-ops on a removed connection: the idle-timer callback
finds no registry entry and returns without emitting or mutating
anything, and the heartbeat callback never touches the registry at
all. -/
theorem remove_idempotent_and_timer_noop (st : ManagerState) (sid : String)
    (now handle : Nat) (c : Bool) :
    cleanupConnection (cleanupConnection st sid) sid = cleanupConnection st sid ∧
    checkIdleConnection (cleanupConnection st sid) sid now handle =
      (cleanupConnection st sid, []) ∧
    (heartbeatTick (cleanupConnection st sid) c now).1 = cleanupConnection st sid := by
  have hnone : alookup (cleanupConnection st sid).connectedUsers sid = none := by
    unfold cleanupConnection
    cases h : alookup st.connectedUsers sid with
    | some conn =>
        show alookup (aerase st.connectedUsers sid) sid = none
        exact alookup_aerase_self _ _
    | none => exact h
  have hretr : (cleanupConnection st sid).connectionRetries =
      aerase st.connectionRetries sid := by
    unfold cleanupConnection
    cases h : alookup st.connectedUsers sid <;> rfl
  have hstep : ∀ s : ManagerState, alookup s.connectedUsers sid = none →
      cleanupConnection s sid =
        { s with connectionRetries := aerase s.connectionRetries sid } := by
    intro s h
    unfold cleanupConnection
    rw [h]
  refine ⟨?_, ?_, rfl⟩
  · rw [hstep (cleanupConnection st sid) hnone, hretr, aerase_aerase_self, ← hretr]
  · unfold checkIdleConnection
    rw [hnone]

/-- C6: the server-side backoff delay sequence is strictly increasing
until it reaches the 16000 ms cap and stays there afterwards; a
`retry_connection` event on a connection whose retry entry has reached
its ceiling schedules nothing and leaves the state untouched, while one
below the ceiling schedules exactly the backoff delay for the current
attempt count. -/
theorem server_backoff_monotone_terminal :
    (∀ a : Nat, serverRetryDelay a < serverRetryDelay (a + 1) ∨
       (serverRetryDelay a = 16000 ∧ serverRetryDelay (a + 1) = 16000)) ∧
    (∀ (st : ManagerState) (sid : String) (now : Nat),
       (retryInfoOrDefault st sid now).attempts ≥ (retryInfoOrDefault st sid now).maxRetries →
       (handleConnectionRetry st sid now).2.2 = none ∧
       (handleConnectionRetry st sid now).1 = st) ∧
    (∀ (st : ManagerState) (sid : String) (now : Nat),
       (retryInfoOrDefault st sid now).attempts < (retryInfoOrDefault st sid now).maxRetries →
       (handleConnectionRetry st sid now).2.2 =
         some (serverRetryDelay (retryInfoOrDefault st sid now).attempts,
           .connectionRetry ((retryInfoOrDefault st sid now).attempts + 1)
             (retryInfoOrDefault st sid now).maxRetries
             (serverRetryDelay ((retryInfoOrDefault st sid now).attempts + 1)))) := by
  refine ⟨?_, ?_, ?_⟩
  · intro a
    by_cases h4 : a < 4
    · left
      interval_cases a <;> decide
    · right
      have hcap : ∀ b : Nat, 4 ≤ b → serverRetryDelay b = 16000 := by
        intro b hb
        have h16 : (16000 : Nat) ≤ 1000 * 2 ^ b := by
          have : (2 : Nat) ^ 4 ≤ 2 ^ b := Nat.pow_le_pow_right (by norm_num) hb
          calc (16000 : Nat) = 1000 * 2 ^ 4 := by norm_num
            _ ≤ 1000 * 2 ^ b := Nat.mul_le_mul_left 1000 this
        unfold serverRetryDelay
        exact Nat.min_eq_right h16
      exact ⟨hcap a (by omega), hcap (a + 1) (by omega)⟩
  · intro st sid now h
    unfold handleConnectionRetry
    rw [if_pos h]
    exact ⟨rfl, rfl⟩
  · intro st sid now h
    unfold handleConnectionRetry
    rw [if_neg (Nat.not_le.mpr h)]

/-- Witness for the C6 theorem: an exhausted retry entry (5 of 5
attempts) schedules nothing, and a fresh connection (default entry,
0 attempts) schedules a 1000 ms retry announcing a 2000 ms next
delay. -/
theorem server_backoff_monotone_terminal_witness :
    (handleConnectionRetry ⟨[], [("s1", ⟨5, 0, 5⟩)], [], []⟩ "s1" 9).2.2 = none ∧
    (handleConnectionRetry ⟨[], [], [], []⟩ "s2" 9).2.2 =
      some (1000, .connectionRetry 1 5 2000) := by
  constructor
  · exact (server_backoff_monotone_terminal.2.1 ⟨[], [("s1", ⟨5, 0, 5⟩)], [], []⟩ "s1" 9
      (by decide)).1
  · exact server_backoff_monotone_terminal.2.2 ⟨[], [], [], []⟩ "s2" 9 (by decide)

/-- C2: a `send_message` whose input passes authentication, rate
limiting, shape validation and content screening, but whose persistence
step fails (the insert throws or returns no row), aborts entirely: no
`new_message` broadcast, no `message_sent` acknowledgement, and no state
change at all. -/
theorem persist_failure_aborts_send (st : ManagerState) (sid : String)
    (conn : UserConnection) (env : MsgEnv) (hr : Int) (m : String)
    (hconn : alookup st.connectedUsers sid = some conn)
    (hauth : conn.userId ≠ 0)
    (hrate : env.msgRateOk = true)
    (hhr : hr ≠ 0)
    (hm : m ≠ "") (hmt : (jsTrim m).length ≠ 0)
    (hvalid : env.validation.isValid = true)
    (hpersist : env.persist = .thrown ∨ env.persist = .noRow) :
    (handleMessage st sid ⟨.num hr, .str m⟩ env).2.filter Emit.isNewMessage = [] ∧
    (handleMessage st sid ⟨.num hr, .str m⟩ env).2.filter Emit.isMessageSent = [] ∧
    (handleMessage st sid ⟨.num hr, .str m⟩ env).1 = st := by
  have h0 : (conn.userId == 0) = false := by simp [hauth]
  rcases hpersist with hp | hp <;>
    simp [handleMessage, hconn, h0, hrate, hvalid, hp, JsVal.truthy,
      JsVal.isNumber, JsVal.isString, JsVal.asStr, hhr, hm, hmt,
      Emit.isNewMessage, Emit.isMessageSent]

/-- Witness for the C2 theorem: a passing message whose insert returns
no row is neither broadcast nor acknowledged. -/
theorem persist_failure_aborts_send_witness :
    (handleMessage ⟨[("s1", ⟨7, "s1", 0, 0, some 1, some 2⟩)], [], [(7, "s1")], []⟩
        "s1" ⟨.num 3, .str "hi"⟩
        ⟨true, ⟨true, "hi", []⟩, .noRow, .ok none⟩).2.filter Emit.isNewMessage = [] :=
  (persist_failure_aborts_send
    ⟨[("s1", ⟨7, "s1", 0, 0, some 1, some 2⟩)], [], [(7, "s1")], []⟩ "s1"
    ⟨7, "s1", 0, 0, some 1, some 2⟩ ⟨true, ⟨true, "hi", []⟩, .noRow, .ok none⟩ 3 "hi"
    rfl (by decide) rfl (by decide) (by decide) (by decide) rfl (Or.inr rfl)).1

/-- C3 counterexample: a message that passes screening and persistence
(the insert returns id 11) is neither broadcast nor acknowledged when
the subsequent sender-metadata lookup throws — yet the message row was
persisted — so "passing screening and persistence" alone does not imply
exactly one `new_message` and one `message_sent`. -/
theorem send_roundtrip_counterexample :
    (handleMessage ⟨[("s1", ⟨7, "s1", 0, 0, some 1, some 2⟩)], [], [(7, "s1")], []⟩
        "s1" ⟨.num 3, .str "hi"⟩
        ⟨true, ⟨true, "hi", []⟩, .saved 11 42, .thrown⟩).2.filter Emit.isNewMessage = [] ∧
    (handleMessage ⟨[("s1", ⟨7, "s1", 0, 0, some 1, some 2⟩)], [], [(7, "s1")], []⟩
        "s1" ⟨.num 3, .str "hi"⟩
        ⟨true, ⟨true, "hi", []⟩, .saved 11 42, .thrown⟩).2.filter Emit.isMessageSent = [] ∧
    (handleMessage ⟨[("s1", ⟨7, "s1", 0, 0, some 1, some 2⟩)], [], [(7, "s1")], []⟩
        "s1" ⟨.num 3, .str "hi"⟩
        ⟨true, ⟨true, "hi", []⟩, .saved 11 42, .thrown⟩).1.dbMessages =
      [⟨11, 3, 7, "hi"⟩] := by
  refine ⟨rfl, rfl, rfl⟩

/-- C3 (amended): a message that passes screening and persistence, and
whose sender-metadata lookup returns (with or without a row), is
broadcast in exactly one `new_message` carrying the screener's sanitized
text and the generated id, and acknowledged to the sender in exactly one
`message_sent` carrying the same id and timestamp. -/
theorem send_success_unique_broadcast_and_ack (st : ManagerState) (sid : String)
    (conn : UserConnection) (env : MsgEnv) (hr : Int) (m : String)
    (mid ts : Nat) (sOpt : Option SenderInfo)
    (hconn : alookup st.connectedUsers sid = some conn)
    (hauth : conn.userId ≠ 0)
    (hrate : env.msgRateOk = true)
    (hhr : hr ≠ 0)
    (hm : m ≠ "") (hmt : (jsTrim m).length ≠ 0)
    (hvalid : env.validation.isValid = true)
    (hpersist : env.persist = .saved mid ts)
    (hsender : env.senderLookup = .ok sOpt) :
    ∃ label,
      (handleMessage st sid ⟨.num hr, .str m⟩ env).2.filter Emit.isNewMessage =
        [.newMessage ("help_request_" ++ toString hr) mid env.validation.sanitized
          label ts] ∧
      (handleMessage st sid ⟨.num hr, .str m⟩ env).2.filter Emit.isMessageSent =
        [.messageSent mid ts] ∧
      (handleMessage st sid ⟨.num hr, .str m⟩ env).1.dbMessages =
        st.dbMessages ++ [⟨mid, hr, conn.userId, env.validation.sanitized⟩] := by
  have h0 : (conn.userId == 0) = false := by simp [hauth]
  refine ⟨match sOpt with
    | some s => if s.username = "" then "Unknown" else s.username
    | none => "Unknown", ?_, ?_, ?_⟩ <;>
    simp [handleMessage, hconn, h0, hrate, hvalid, hpersist, hsender,
      JsVal.truthy, JsVal.isNumber, JsVal.isString, JsVal.asStr, hhr, hm, hmt,
      Emit.isNewMessage, Emit.isMessageSent, JsVal.asNum]
  cases sOpt <;> rfl

/-- Witness for the amended C3 theorem: a passing message from user 7
with a missing sender row is broadcast once with the fallback label. -/
theorem send_success_unique_broadcast_and_ack_witness :
    (handleMessage ⟨[("s1", ⟨7, "s1", 0, 0, some 1, some 2⟩)], [], [(7, "s1")], []⟩
        "s1" ⟨.num 3, .str "hi"⟩
        ⟨true, ⟨true, "hi", []⟩, .saved 11 42, .ok none⟩).2.filter Emit.isMessageSent =
      [.messageSent 11 42] := by
  obtain ⟨label, -, hack, -⟩ := send_success_unique_broadcast_and_ack
    ⟨[("s1", ⟨7, "s1", 0, 0, some 1, some 2⟩)], [], [(7, "s1")], []⟩ "s1"
    ⟨7, "s1", 0, 0, some 1, some 2⟩ ⟨true, ⟨true, "hi", []⟩, .saved 11 42, .ok none⟩
    3 "hi" 11 42 none rfl (by decide) rfl (by decide) (by decide) (by decide) rfl rfl rfl
  exact hack

/-- C4: a `send_message` whose content fails the security screen aborts
with a content-rejection error: the state is unchanged (nothing is
persisted), nothing is broadcast, and the only side channel is one
high-severity `malicious_message_blocked` security event carrying the
matched threat categories and a forensic snippet equal to the first 100
characters of the original message (never more). -/
theorem content_rejected_screen_frame (st : ManagerState) (sid : String)
    (conn : UserConnection) (env : MsgEnv) (hr : Int) (m : String)
    (hconn : alookup st.connectedUsers sid = some conn)
    (hauth : conn.userId ≠ 0)
    (hrate : env.msgRateOk = true)
    (hhr : hr ≠ 0)
    (hm : m ≠ "") (hmt : (jsTrim m).length ≠ 0)
    (hinvalid : env.validation.isValid = false) :
    (handleMessage st sid ⟨.num hr, .str m⟩ env).1 = st ∧
    (handleMessage st sid ⟨.num hr, .str m⟩ env).2 =
      [.errEvt "Message contains inappropriate content",
       .secLog "malicious_message_blocked" "high" env.validation.threats
         (some (m.take 100))] := by
  have h0 : (conn.userId == 0) = false := by simp [hauth]
  constructor <;>
    simp [handleMessage, hconn, h0, hrate, hinvalid, JsVal.truthy,
      JsVal.isNumber, JsVal.isString, JsVal.asStr, hhr, hm, hmt]

/-- Witness for the C4 theorem: a screened-out message leaves the state
unchanged. -/
theorem content_rejected_screen_frame_witness :
    (handleMessage ⟨[("s1", ⟨7, "s1", 0, 0, some 1, some 2⟩)], [], [(7, "s1")], []⟩
        "s1" ⟨.num 3, .str "bad"⟩
        ⟨true, ⟨false, "", ["xss"]⟩, .noRow, .ok none⟩).1 =
      ⟨[("s1", ⟨7, "s1", 0, 0, some 1, some 2⟩)], [], [(7, "s1")], []⟩ :=
  (content_rejected_screen_frame
    ⟨[("s1", ⟨7, "s1", 0, 0, some 1, some 2⟩)], [], [(7, "s1")], []⟩ "s1"
    ⟨7, "s1", 0, 0, some 1, some 2⟩ ⟨true, ⟨false, "", ["xss"]⟩, .noRow, .ok none⟩
    3 "bad" rfl (by decide) rfl (by decide) (by decide) (by decide) rfl).1

/-- C1 counterexample: on a connection already authenticated as subject
7, a second `authenticate` carrying a valid token for subject 9 does not
fail and does not leave the stored subject unchanged — it emits
`authenticated` again and overwrites the stored subject with 9 (and
inserts a second `user_connections` row). -/
theorem reauthenticate_rejected_counterexample :
    (handleAuthenticate ⟨[("s1", ⟨7, "s1", 0, 0, some 1, some 2⟩)], [], [(7, "s1")], []⟩
        "s1" ⟨true, true, true, .ok (.num 9), .ok (some ⟨9, "bob"⟩), true, 1000⟩).2.filter
      Emit.isAuthenticated = [.authenticated 9 1000] ∧
    alookup (handleAuthenticate
        ⟨[("s1", ⟨7, "s1", 0, 0, some 1, some 2⟩)], [], [(7, "s1")], []⟩
        "s1" ⟨true, true, true, .ok (.num 9), .ok (some ⟨9, "bob"⟩), true, 1000⟩).1.connectedUsers
      "s1" = some ⟨9, "s1", 0, 0, some 1, some 2⟩ ∧
    (9 : Int) ≠ 7 := by
  refine ⟨rfl, by decide, by decide⟩

/-- C1 (amended): `authenticate` on a connection whose subject is already
set is not rejected — there is no `AlreadyAuthenticated` failure.  The
handler runs the full authentication again, and when the new token
passes every check it emits `authenticated` for the new subject and
overwrites the connection's stored subject with it; re-authentication on
the same connection is permitted. -/
theorem reauthenticate_overwrites_subject (st : ManagerState) (sid : String)
    (conn : UserConnection) (env : AuthEnv) (u : Int) (du : DirUser)
    (hconn : alookup st.connectedUsers sid = some conn)
    (_hprev : conn.userId ≠ 0)
    (h1 : env.authRateOk = true) (h2 : env.tokenFormatOk = true)
    (h3 : env.secretPresent = true) (h4 : env.verify = .ok (.num u))
    (hu : u ≠ 0) (h5 : env.userLookup = .ok (some du)) (h6 : env.insertOk = true) :
    (handleAuthenticate st sid env).2.filter Emit.isAuthenticated =
      [.authenticated u env.now] ∧
    alookup (handleAuthenticate st sid env).1.connectedUsers sid =
      some { conn with userId := u } := by
  constructor
  · simp [handleAuthenticate, h1, h2, h3, h4, h5, h6, JsVal.truthy, JsVal.isNumber,
      JsVal.asNum, hu, Emit.isAuthenticated]
  · simp only [handleAuthenticate, h1, h2, h3, h4, h5, h6]
    simp [JsVal.truthy, JsVal.isNumber, JsVal.asNum, hu, alookup_aupdate_self, hconn]

/-- Witness for the amended C1 theorem at the counterexample's concrete
input: the stored subject becomes 9. -/
theorem reauthenticate_overwrites_subject_witness :
    alookup (handleAuthenticate
        ⟨[("s1", ⟨7, "s1", 0, 0, some 1, some 2⟩)], [], [(7, "s1")], []⟩
        "s1" ⟨true, true, true, .ok (.num 9), .ok (some ⟨9, "bob"⟩), true, 1000⟩).1.connectedUsers
      "s1" = some ⟨9, "s1", 0, 0, some 1, some 2⟩ :=
  (reauthenticate_overwrites_subject
    ⟨[("s1", ⟨7, "s1", 0, 0, some 1, some 2⟩)], [], [(7, "s1")], []⟩ "s1"
    ⟨7, "s1", 0, 0, some 1, some 2⟩
    ⟨true, true, true, .ok (.num 9), .ok (some ⟨9, "bob"⟩), true, 1000⟩ 9 ⟨9, "bob"⟩
    rfl (by decide) rfl rfl rfl rfl (by decide) rfl rfl).2

/-- C8: every authentication failure in the six classes the handler
distinguishes (rate-limited, malformed token, missing secret,
verification failure, invalid decoded subject, unknown subject) leaves
the whole manager state unchanged, emits exactly one `auth_error` whose
message is one of the fixed generic texts (never internal detail), emits
no `authenticated` event and no disconnect — the connection stays open
and unauthenticated — and a subsequent attempt on the same state with a
token passing every check succeeds with `authenticated`. -/
theorem auth_failure_generic_and_frame (st : ManagerState) (sid : String)
    (env env2 : AuthEnv) (u : Int) (du : DirUser)
    (hfail : authFailClass env = true)
    (h1 : env2.authRateOk = true) (h2 : env2.tokenFormatOk = true)
    (h3 : env2.secretPresent = true) (h4 : env2.verify = .ok (.num u))
    (hu : u ≠ 0) (h5 : env2.userLookup = .ok (some du)) (h6 : env2.insertOk = true) :
    (handleAuthenticate st sid env).1 = st ∧
    (∃ msg, (handleAuthenticate st sid env).2.filter Emit.isAuthError =
        [.authError msg] ∧ msg ∈ genericAuthMessages) ∧
    (handleAuthenticate st sid env).2.filter Emit.isAuthenticated = [] ∧
    (handleAuthenticate st sid env).2.filter Emit.isDisconnect = [] ∧
    (handleAuthenticate st sid env2).2.filter Emit.isAuthenticated =
      [.authenticated u env2.now] := by
  have hsucc : (handleAuthenticate st sid env2).2.filter Emit.isAuthenticated =
      [.authenticated u env2.now] := by
    simp [handleAuthenticate, h1, h2, h3, h4, h5, h6, JsVal.truthy, JsVal.isNumber,
      JsVal.asNum, hu, Emit.isAuthenticated]
  have hshape : ∃ msg rest, handleAuthenticate st sid env = (st, .authError msg :: rest) ∧
      msg ∈ genericAuthMessages ∧
      (rest = [] ∨ ∃ k sev th sn, rest = [.secLog k sev th sn]) := by
    clear hsucc h1 h2 h3 h4 h5 h6 hu
    obtain ⟨ra, tf, sp, vf, ul, io, nw⟩ := env
    cases ra with
    | false =>
        exact ⟨"Too many authentication attempts", [], rfl,
          by simp [genericAuthMessages], Or.inl rfl⟩
    | true =>
    cases tf with
    | false =>
        exact ⟨"Invalid token format", [.secLog "invalid_token_format" "medium" [] none],
          rfl, by simp [genericAuthMessages],
          Or.inr ⟨"invalid_token_format", "medium", [], none, rfl⟩⟩
    | true =>
    cases sp with
    | false =>
        exact ⟨"Authentication service unavailable", [], rfl,
          by simp [genericAuthMessages], Or.inl rfl⟩
    | true =>
    cases vf with
    | jwtError =>
        exact ⟨"Invalid authentication token",
          [.secLog "jwt_verification_failed" "high" [] none], rfl,
          by simp [genericAuthMessages],
          Or.inr ⟨"jwt_verification_failed", "high", [], none, rfl⟩⟩
    | genError =>
        exact ⟨"Authentication failed",
          [.secLog "authentication_error" "medium" [] none], rfl,
          by simp [genericAuthMessages],
          Or.inr ⟨"authentication_error", "medium", [], none, rfl⟩⟩
    | ok uidVal =>
    cases huv : (uidVal.truthy && uidVal.isNumber) with
    | false =>
        refine ⟨"Invalid user ID in token",
          [.secLog "invalid_user_id" "medium" [] none], ?_,
          by simp [genericAuthMessages],
          Or.inr ⟨"invalid_user_id", "medium", [], none, rfl⟩⟩
        simp [handleAuthenticate, huv]
    | true =>
    cases ul with
    | thrown =>
        refine ⟨"Authentication failed",
          [.secLog "authentication_error" "medium" [] none], ?_,
          by simp [genericAuthMessages],
          Or.inr ⟨"authentication_error", "medium", [], none, rfl⟩⟩
        simp [handleAuthenticate, huv]
    | ok uopt =>
    cases uopt with
    | none =>
        refine ⟨"User not found", [.secLog "user_not_found" "medium" [] none], ?_,
          by simp [genericAuthMessages],
          Or.inr ⟨"user_not_found", "medium", [], none, rfl⟩⟩
        simp [handleAuthenticate, huv]
    | some du2 => simp [authFailClass, huv] at hfail
  obtain ⟨msg, rest, heq, hmem, hrest⟩ := hshape
  rw [heq]
  refine ⟨rfl, ⟨msg, ?_, hmem⟩, ?_, ?_, hsucc⟩ <;>
    rcases hrest with hrest | ⟨k, sev, th, sn, hrest⟩ <;> subst hrest <;>
    simp [Emit.isAuthError, Emit.isAuthenticated, Emit.isDisconnect]

/-- Witness for the C8 theorem: a rate-limited attempt on an empty state
leaves the state unchanged, and the successful follow-up emits
`authenticated` for subject 9. -/
theorem auth_failure_generic_and_frame_witness :
    (handleAuthenticate ⟨[], [], [], []⟩ "s1"
      ⟨false, true, true, .ok (.num 9), .ok (some ⟨9, "bob"⟩), true, 5⟩).1 =
      ⟨[], [], [], []⟩ ∧
    (handleAuthenticate ⟨[], [], [], []⟩ "s1"
      ⟨true, true, true, .ok (.num 9), .ok (some ⟨9, "bob"⟩), true, 5⟩).2.filter
      Emit.isAuthenticated = [.authenticated 9 5] := by
  obtain ⟨hframe, -, -, -, hsucc⟩ := auth_failure_generic_and_frame
    ⟨[], [], [], []⟩ "s1"
    ⟨false, true, true, .ok (.num 9), .ok (some ⟨9, "bob"⟩), true, 5⟩
    ⟨true, true, true, .ok (.num 9), .ok (some ⟨9, "bob"⟩), true, 5⟩ 9 ⟨9, "bob"⟩
    rfl rfl rfl rfl rfl (by decide) rfl rfl
  exact ⟨hframe, hsucc⟩

/-- C9: the screen of an inbound connection attempt rejects on the
origin check exactly when the origin header — falling back to the
referer header — is non-empty and not in the configured allow-list; an
attempt with neither header present can never be rejected on the origin
check; any rejection leaves the registry untouched; and only an attempt
passing the whole screen (origin, hijack detection, rate limit) is
entered into the registry, unauthenticated. -/
theorem connection_screen_origin_admission (h : Headers) (env : GateEnv)
    (st : ManagerState) (sid : String) (now hbHandle idleHandle : Nat) :
    (validateConnection h env = some .invalidOrigin ↔
      ∃ s, effectiveOrigin h = some s ∧ s ≠ "" ∧ s ∉ env.allowedOrigins) ∧
    (h.origin = none → h.referer = none →
      validateConnection h env ≠ some .invalidOrigin) ∧
    (∀ r, validateConnection h env = some r →
      (setupConnection st sid h env now hbHandle idleHandle).1 = st) ∧
    (validateConnection h env = none →
      alookup (setupConnection st sid h env now hbHandle idleHandle).1.connectedUsers
        sid = some (newConnection sid now hbHandle idleHandle)) := by
  have hiff : validateConnection h env = some .invalidOrigin ↔
      ∃ s, effectiveOrigin h = some s ∧ s ≠ "" ∧ s ∉ env.allowedOrigins := by
    unfold validateConnection
    by_cases hcond : (jsTruthyOpt (effectiveOrigin h) &&
        !validateOrigin env.allowedOrigins ((effectiveOrigin h).getD "")) = true
    · rw [if_pos hcond]
      obtain ⟨ht, hv⟩ := Bool.and_eq_true_iff.mp hcond
      cases heo : effectiveOrigin h with
      | none => rw [heo] at ht; exact absurd ht (by simp [jsTruthyOpt])
      | some s =>
          rw [heo] at ht hv
          have hsne : s ≠ "" := by simpa [jsTruthyOpt] using ht
          have hnm : s ∉ env.allowedOrigins := by
            intro hmem
            rw [validateOrigin] at hv
            simp [hmem] at hv
          exact iff_of_true rfl ⟨s, rfl, hsne, hnm⟩
    · rw [if_neg hcond]
      constructor
      · intro hc
        exfalso
        cases hcw : env.cswh with
        | true => simp [hcw] at hc
        | false =>
            rw [hcw] at hc
            cases hcr : env.connRateOk <;> rw [hcr] at hc <;> simp at hc
      · rintro ⟨s, hs, hsne, hnm⟩
        exfalso
        apply hcond
        rw [hs]
        have h1 : jsTruthyOpt (some s) = true := by simp [jsTruthyOpt, hsne]
        have h2 : validateOrigin env.allowedOrigins ((some s).getD "") = false := by
          rw [Option.getD_some, validateOrigin]
          cases hb : env.allowedOrigins.contains s with
          | false => rfl
          | true => exact absurd (List.mem_of_elem_eq_true hb) hnm
        rw [h1, h2]
        rfl
  refine ⟨hiff, ?_, ?_, ?_⟩
  · intro ho hr hc
    obtain ⟨s, hs, -, -⟩ := hiff.mp hc
    have : effectiveOrigin h = none := by
      unfold effectiveOrigin
      rw [ho, hr]
    rw [this] at hs
    cases hs
  · intro r hv
    unfold setupConnection
    rw [hv]
    cases r <;> rfl
  · intro hv
    unfold setupConnection
    rw [hv]
    exact alookup_aset_self _ _ _

/-- Witness for the C9 theorem: with neither header present and a
passing screen, the attempt is admitted to the registry, and an
attempt whose effective origin is outside the allow-list is rejected on
the origin check. -/
theorem connection_screen_origin_admission_witness :
    alookup ((setupConnection ⟨[], [], [], []⟩ "s1" ⟨none, none⟩
        ⟨["https://app.example"], false, true⟩ 3 1 2).1).connectedUsers "s1" =
      some (newConnection "s1" 3 1 2) ∧
    validateConnection ⟨some "https://evil.example", none⟩
        ⟨["https://app.example"], false, true⟩ = some .invalidOrigin := by
  constructor
  · exact (connection_screen_origin_admission ⟨none, none⟩
      ⟨["https://app.example"], false, true⟩ ⟨[], [], [], []⟩ "s1" 3 1 2).2.2.2 rfl
  · exact (connection_screen_origin_admission ⟨some "https://evil.example", none⟩
      ⟨["https://app.example"], false, true⟩ ⟨[], [], [], []⟩ "s1" 3 1 2).1.mpr
      ⟨"https://evil.example", rfl, by decide, by decide⟩

end GLX
